import Mathlib

/-
Verification of the PERO remote-control dashboard core logic.

The development shallowly embeds the two nontrivial parts of the
repository — the joystick direction classifier and the camera stream
health monitor — together with the map-marker update guard, the
command record written to the realtime database, and the speed cycler.
Real-number arithmetic of the JavaScript source is modelled over ℚ;
the single square root in the source (the dead-zone test) is replaced
by the equivalent square-free comparison, recorded at the definition.
-/

set_option autoImplicit false

namespace PERO

/-- The five discrete commands produced by the classifier
(`CENTER | UP | DOWN | LEFTY | RIGHTY` in App.js). -/
inductive Command where
  | CENTER
  | UP
  | DOWN
  | LEFTY
  | RIGHTY
deriving DecidableEq, Repr

/-- Joystick radius constant from App.js (`joystickRadius = 70`). -/
def joystickRadius : ℚ := 70

/-- Dead-zone radius constant from App.js (`deadZoneRadius = 20`). -/
def deadZoneRadius : ℚ := 20

/-- Axis priority constant from App.js (`axisPriorityThreshold = 0.5`). -/
def axisPriorityThreshold : ℚ := 1 / 2

/-- Embedding of `getDominantDirection` (App.js lines 270-284); the three
captured module constants are passed explicitly.  The source computes
`normalizedX = x / radius`, `normalizedY = y / radius` and tests
`Math.sqrt (nx*nx + ny*ny) < deadZone / radius`; since a square root is
nonnegative, that comparison holds exactly when `0 < deadZone / radius`
and `nx^2 + ny^2 < (deadZone / radius)^2`, which is the square-free form
used here so the definition stays computable over ℚ. -/
def getDominantDirection (x y radius deadZone axisPriority : ℚ) : Command :=
  if 0 < deadZone / radius ∧
      (x / radius) ^ 2 + (y / radius) ^ 2 < (deadZone / radius) ^ 2 then
    Command.CENTER
  else if |x / radius| > |y / radius| * axisPriority then
    if x / radius > 0 then Command.RIGHTY else Command.LEFTY
  else if y / radius > 0 then Command.DOWN else Command.UP

/-- Radial clamp performed by `handleJoystickMove` (App.js lines 310-315)
before it calls the classifier: when the distance from the container
center exceeds the joystick radius, the offset is scaled back onto the
circle.  The source computes `distance = Math.sqrt (x*x + y*y)`; here the
distance is passed explicitly and is characterized in the theorems by
`dist ^ 2 = x ^ 2 + y ^ 2` with `0 ≤ dist`. -/
def clampToRadius (x y dist radius : ℚ) : ℚ × ℚ :=
  if dist > radius then (x / dist * radius, y / dist * radius) else (x, y)

/-- The stream-monitor state of App.js: `cctvStream` (currentUrl),
`lastGoodStreamUrl` (lastGoodUrl) and `videoStreamError` (hasError). -/
structure StreamState where
  currentUrl : String
  lastGoodUrl : String
  hasError : Bool
deriving DecidableEq, Repr

/-- Result of one connectivity probe of `testStreamConnection`: the fetch
either resolves (Success with the timestamped URL) or any transport
error / 3-second timeout is caught and treated as Failure. -/
inductive ProbeResult where
  | Success (url : String)
  | Failure
deriving DecidableEq, Repr

/-- State transition performed by `testStreamConnection`
(App.js lines 137-163).  On success the code clears the error flag and
stores the timestamped URL as both the current and the last good URL; in
the catch block it sets the error flag and falls back to the last good
URL when one exists (`if (lastGoodStreamUrl)`, i.e. the string is
non-empty) and to the empty string otherwise. -/
def applyResult (s : StreamState) (r : ProbeResult) : StreamState :=
  match r with
  | ProbeResult.Success u =>
    { currentUrl := u, lastGoodUrl := u, hasError := false }
  | ProbeResult.Failure =>
    if s.lastGoodUrl ≠ "" then
      { s with hasError := true, currentUrl := s.lastGoodUrl }
    else
      { s with hasError := true, currentUrl := "" }

/-- Initial stream state of App.js: `cctvStream = ""`,
`lastGoodStreamUrl = ""`, `videoStreamError = false`. -/
def initialStreamState : StreamState :=
  { currentUrl := "", lastGoodUrl := "", hasError := false }

/-- The iframe `onError` handler (App.js lines 458-466): set the error
flag; if the current URL differs from a non-empty last good URL, fall
back to it; if no good URL ever existed, clear the current URL; otherwise
leave the current URL (already the last good one) in place. -/
def rendererError (s : StreamState) : StreamState :=
  if s.currentUrl ≠ s.lastGoodUrl ∧ s.lastGoodUrl ≠ "" then
    { s with hasError := true, currentUrl := s.lastGoodUrl }
  else if s.lastGoodUrl = "" then
    { s with hasError := true, currentUrl := "" }
  else
    { s with hasError := true }

/-- `handleManualReconnect` (App.js lines 187-192): optimistically clear
the error flag and point the iframe at a fresh timestamped URL; the last
good URL is left unchanged. -/
def manualReconnect (s : StreamState) (u : String) : StreamState :=
  { s with hasError := false, currentUrl := u }

/-- The state-changing events of the stream monitor: a probe resolving
(success or failure), a rendering failure reported by the iframe, and a
user-initiated manual reconnect with a fresh URL. -/
inductive MonitorEvent where
  | probe (r : ProbeResult)
  | rendererFail
  | reconnect (u : String)

/-- One monitor step: dispatch an event to the corresponding handler. -/
def monitorStep (s : StreamState) : MonitorEvent → StreamState
  | MonitorEvent.probe r => applyResult s r
  | MonitorEvent.rendererFail => rendererError s
  | MonitorEvent.reconnect u => manualReconnect s u

/-- Run the monitor from the initial state over a list of events. -/
def runMonitor (events : List MonitorEvent) : StreamState :=
  events.foldl monitorStep initialStreamState

/-- The StreamState invariant of the spec: whenever the error flag is
set, the current URL equals the last good URL if that is non-empty, and
is empty otherwise. -/
def streamInvariant (s : StreamState) : Prop :=
  s.hasError = true →
    (if s.lastGoodUrl ≠ "" then s.currentUrl = s.lastGoodUrl
     else s.currentUrl = "")

/-- Model of the JavaScript number values relevant to the GPS path:
`parseFloat` yields NaN, an infinity, or a finite number. -/
inductive JsNum where
  | nan
  | posInf
  | negInf
  | num (q : ℚ)
deriving DecidableEq, Repr

/-- The JavaScript `isNaN` test on a parsed number: true exactly for
NaN; infinities are numbers for `isNaN`. -/
def JsNum.isNaN : JsNum → Bool
  | JsNum.nan => true
  | _ => false

/-- Digits of a decimal prefix: consume leading digit characters,
returning their values and the rest of the input. -/
def takeDigits : List Char → List ℕ × List Char
  | [] => ([], [])
  | c :: cs =>
    if c.isDigit then
      let p := takeDigits cs
      ((c.toNat - 48) :: p.1, p.2)
    else ([], c :: cs)

/-- Value of a digit list read as an integer part. -/
def digitsToNat (ds : List ℕ) : ℕ :=
  ds.foldl (fun acc d => 10 * acc + d) 0

/-- Value of a digit list read as a fractional part. -/
def fracValue (ds : List ℕ) : ℚ :=
  ds.foldr (fun d acc => ((d : ℚ) + acc) / 10) 0

/-- Parse an unsigned JavaScript float after the optional sign: the
literal `Infinity`, or a decimal number `digits [. digits]` with at
least one digit; anything else (such as the sentinel `N/A`) is NaN. -/
def parseUnsigned (cs : List Char) (neg : Bool) : JsNum :=
  if cs.take 8 = "Infinity".data then
    if neg then JsNum.negInf else JsNum.posInf
  else
    let ip := takeDigits cs
    let fracDigits :=
      match ip.2 with
      | '.' :: rest => (takeDigits rest).1
      | _ => []
    if ip.1 = [] ∧ fracDigits = [] then JsNum.nan
    else
      let mag : ℚ := (digitsToNat ip.1 : ℚ) + fracValue fracDigits
      JsNum.num (if neg then -mag else mag)

/-- Model of the JavaScript `parseFloat` builtin on the strings the
dashboard feeds to the map update (outputs of `toFixed`, the Infinity
literals, and the `N/A` sentinel): an optional sign followed by either
the `Infinity` literal or decimal digits with an optional fraction; a
string with no numeric prefix parses to NaN. -/
def parseFloatJs (s : String) : JsNum :=
  match s.data with
  | '-' :: rest => parseUnsigned rest true
  | '+' :: rest => parseUnsigned rest false
  | cs => parseUnsigned cs false

/-- State owned by the map renderer: the marker position and the map
center, each a (lat, lng) pair as set by `setPosition` / `setCenter`. -/
structure MarkerState where
  markerPos : JsNum × JsNum
  mapCenter : JsNum × JsNum
deriving DecidableEq, Repr

/-- Embedding of the map-marker update effect (App.js lines 253-267):
parse both coordinates with `parseFloat`; if neither is NaN
(`!isNaN(latNum) && !isNaN(lngNum)`), move the marker and re-center the
map to the parsed pair, otherwise leave the marker state unchanged. -/
def updateMapMarker (m : MarkerState) (latStr lngStr : String) : MarkerState :=
  let latNum := parseFloatJs latStr
  let lngNum := parseFloatJs lngStr
  if !latNum.isNaN && !lngNum.isNaN then
    { markerPos := (latNum, lngNum), mapCenter := (latNum, lngNum) }
  else m

/-- A concrete marker state used as the unchanged baseline. -/
def marker0 : MarkerState :=
  { markerPos := (JsNum.num 0, JsNum.num 0)
    mapCenter := (JsNum.num 0, JsNum.num 0) }

/-- The flat record written by `updateFirebase` (App.js lines 101-125),
without the wall-clock timestamp field: each directional key is `"1"`
exactly when the direction string matches, and the spray keys serialize
the two booleans. -/
structure ControlRecord where
  up : String
  down : String
  left : String
  right : String
  spray_left : String
  spray_right : String
deriving DecidableEq, Repr

/-- Record built by `updateFirebase` from the current direction string
and the two spray flags. -/
def updateFirebaseRecord (dir : String) (sLeft sRight : Bool) : ControlRecord :=
  { up := if dir = "UP" then "1" else "0"
    down := if dir = "DOWN" then "1" else "0"
    left := if dir = "LEFTY" then "1" else "0"
    right := if dir = "RIGHTY" then "1" else "0"
    spray_left := if sLeft then "1" else "0"
    spray_right := if sRight then "1" else "0" }

/-- The four directional values of a control record, in source order. -/
def ControlRecord.dirFlags (r : ControlRecord) : List String :=
  [r.up, r.down, r.left, r.right]

/-- `toggleSpeed` (App.js lines 383-396): the new speed is
`(speed % 3) + 1`; the JavaScript remainder on these nonnegative
integers coincides with Nat.mod. -/
def toggleSpeed (speed : ℕ) : ℕ :=
  speed % 3 + 1

/-- C3: applying a successful probe result yields the state with both
URLs set to the probed URL and the error flag cleared, regardless of the
prior state; in particular hasError is false after any success. -/
theorem applyResult_success (s : StreamState) (u : String) :
    applyResult s (ProbeResult.Success u) =
      { currentUrl := u, lastGoodUrl := u, hasError := false } :=
  rfl

/-- C4: applying a failure sets the error flag, leaves the last good URL
unchanged, and makes the current URL the last good URL when that is
non-empty and empty otherwise. -/
theorem applyResult_failure (s : StreamState) :
    (applyResult s ProbeResult.Failure).hasError = true ∧
    (applyResult s ProbeResult.Failure).lastGoodUrl = s.lastGoodUrl ∧
    (s.lastGoodUrl ≠ "" →
      (applyResult s ProbeResult.Failure).currentUrl = s.lastGoodUrl) ∧
    (s.lastGoodUrl = "" →
      (applyResult s ProbeResult.Failure).currentUrl = "") := by
  unfold applyResult
  by_cases h : s.lastGoodUrl = "" <;> simp [h]

/-- Witness for C4 at two concrete states, one with a non-empty and one
with an empty last good URL. -/
theorem applyResult_failure_witness :
    (applyResult { currentUrl := "X", lastGoodUrl := "A", hasError := false }
        ProbeResult.Failure).currentUrl = "A" ∧
    (applyResult { currentUrl := "B", lastGoodUrl := "", hasError := false }
        ProbeResult.Failure).currentUrl = "" ∧
    (applyResult { currentUrl := "X", lastGoodUrl := "A", hasError := false }
        ProbeResult.Failure).hasError = true := by
  refine ⟨?_, ?_, ?_⟩
  · exact (applyResult_failure
      { currentUrl := "X", lastGoodUrl := "A", hasError := false }).2.2.1
      (by decide)
  · exact (applyResult_failure
      { currentUrl := "B", lastGoodUrl := "", hasError := false }).2.2.2 rfl
  · exact (applyResult_failure
      { currentUrl := "X", lastGoodUrl := "A", hasError := false }).1

/-- C6: the probe reducer is idempotent — applying the same result twice
gives the same state as applying it once. -/
theorem applyResult_idempotent (s : StreamState) (r : ProbeResult) :
    applyResult (applyResult s r) r = applyResult s r := by
  cases r with
  | Success u => rfl
  | Failure =>
    unfold applyResult
    by_cases h : s.lastGoodUrl = "" <;> simp [h]

/-- Every single monitor step lands in a state satisfying the stream
invariant, whatever the starting state: each handler either clears the
error flag or explicitly re-establishes the fallback discipline. -/
theorem streamInvariant_step (s : StreamState) (e : MonitorEvent) :
    streamInvariant (monitorStep s e) := by
  cases e with
  | probe r =>
    cases r with
    | Success u =>
      intro h
      simp [monitorStep, applyResult] at h
    | Failure =>
      intro _
      simp only [monitorStep, applyResult]
      by_cases h : s.lastGoodUrl = "" <;> simp [h]
  | rendererFail =>
    intro _
    simp only [monitorStep, rendererError]
    by_cases h1 : s.currentUrl ≠ s.lastGoodUrl ∧ s.lastGoodUrl ≠ ""
    · simp [h1]
    · by_cases h2 : s.lastGoodUrl = ""
      · simp [h1, h2]
      · have hcur : s.currentUrl = s.lastGoodUrl := by
          by_contra hne
          exact h1 ⟨hne, h2⟩
        simp [h1, h2, hcur]
  | reconnect u =>
    intro h
    simp [monitorStep, manualReconnect] at h

/-- Folding the monitor step over any event list preserves the stream
invariant. -/
theorem streamInvariant_foldl (events : List MonitorEvent) (s : StreamState)
    (h : streamInvariant s) :
    streamInvariant (events.foldl monitorStep s) := by
  induction events generalizing s with
  | nil => exact h
  | cons e es ih => exact ih (monitorStep s e) (streamInvariant_step s e)

/-- C5: from the initial all-empty/false state, every sequence of
monitor operations (probe success, probe failure, renderer-reported
failure, manual reconnect) leaves the stream state satisfying the
invariant: when hasError is set, currentUrl equals lastGoodUrl if the
latter is non-empty, and is empty otherwise. -/
theorem monitor_invariant (events : List MonitorEvent) :
    streamInvariant (runMonitor events) :=
  streamInvariant_foldl events initialStreamState
    (by intro h; simp [initialStreamState] at h)

/-- C1: inside the dead zone the classifier returns CENTER — for any
offset whose Euclidean distance from the rest center is strictly below
deadZone (stated square-free as x² + y² < deadZone²), with radius > 0
and 0 ≤ deadZone < radius. -/
theorem classify_deadzone_center (x y radius deadZone axisPriority : ℚ)
    (hr : 0 < radius) (hdz0 : 0 ≤ deadZone) (hdzr : deadZone < radius)
    (hdist : x ^ 2 + y ^ 2 < deadZone ^ 2) :
    getDominantDirection x y radius deadZone axisPriority = Command.CENTER := by
  have hdzpos : 0 < deadZone := by nlinarith [sq_nonneg x, sq_nonneg y]
  unfold getDominantDirection
  rw [if_pos]
  refine ⟨div_pos hdzpos hr, ?_⟩
  rw [div_pow, div_pow, div_pow, div_add_div_same]
  exact (div_lt_div_iff_of_pos_right (by positivity)).mpr hdist

/-- Witness for C1: offset (3, -4) with the App.js constants (distance 5,
dead zone 20) classifies as CENTER. -/
theorem classify_deadzone_center_witness :
    getDominantDirection 3 (-4) joystickRadius deadZoneRadius
      axisPriorityThreshold = Command.CENTER :=
  classify_deadzone_center 3 (-4) joystickRadius deadZoneRadius
    axisPriorityThreshold (by norm_num [joystickRadius])
    (by norm_num [deadZoneRadius])
    (by norm_num [deadZoneRadius, joystickRadius])
    (by norm_num [deadZoneRadius])

/-- Shared helper: outside the dead zone (deadZone² ≤ x² + y²) the
classifier reduces to the axis-dominant comparison of the source. -/
theorem classify_of_outside (x y radius deadZone axisPriority : ℚ)
    (hr : 0 < radius) (houtside : deadZone ^ 2 ≤ x ^ 2 + y ^ 2) :
    getDominantDirection x y radius deadZone axisPriority =
      if |x / radius| > |y / radius| * axisPriority then
        if x / radius > 0 then Command.RIGHTY else Command.LEFTY
      else if y / radius > 0 then Command.DOWN else Command.UP := by
  unfold getDominantDirection
  rw [if_neg]
  rintro ⟨-, hlt⟩
  rw [div_pow, div_pow, div_pow, div_add_div_same] at hlt
  have hxy : x ^ 2 + y ^ 2 < deadZone ^ 2 :=
    (div_lt_div_iff_of_pos_right (by positivity : (0:ℚ) < radius ^ 2)).mp hlt
  linarith

/-- C2: outside the dead zone the classifier is the asymmetric
axis-dominant rule: with nx = x/radius and ny = y/radius, it returns
RIGHTY/LEFTY by the sign of nx when |nx| > |ny| · axisPriority, and
DOWN/UP by the sign of ny otherwise. -/
theorem classify_axis_dominant (x y radius deadZone axisPriority : ℚ)
    (hr : 0 < radius) (_hdz0 : 0 ≤ deadZone)
    (houtside : deadZone ^ 2 ≤ x ^ 2 + y ^ 2) :
    getDominantDirection x y radius deadZone axisPriority =
      if |x / radius| > |y / radius| * axisPriority then
        if x / radius > 0 then Command.RIGHTY else Command.LEFTY
      else if y / radius > 0 then Command.DOWN else Command.UP :=
  classify_of_outside x y radius deadZone axisPriority hr houtside

/-- Witness for C2: the documented scenario — offset (30, 40) with
radius 70, dead zone 20, axis priority 1/2 classifies as RIGHTY, not
DOWN, despite y having the larger raw magnitude. -/
theorem classify_axis_dominant_witness :
    getDominantDirection 30 40 joystickRadius deadZoneRadius
      axisPriorityThreshold = Command.RIGHTY := by
  have h := classify_axis_dominant 30 40 joystickRadius deadZoneRadius
    axisPriorityThreshold (by norm_num [joystickRadius])
    (by norm_num [deadZoneRadius]) (by norm_num [deadZoneRadius])
  rw [h]
  have c1 : |(30:ℚ) / joystickRadius| > |(40:ℚ) / joystickRadius| *
      axisPriorityThreshold := by
    rw [abs_of_pos (by norm_num [joystickRadius]),
      abs_of_pos (by norm_num [joystickRadius])]
    norm_num [joystickRadius, axisPriorityThreshold]
  rw [if_pos c1, if_pos (by norm_num [joystickRadius] :
    (30:ℚ) / joystickRadius > 0)]

/-- C7: when the offset's distance from the center exceeds the radius,
classifying the radially clamped offset (as handleJoystickMove produces
it) yields the same command as classifying the raw offset; the distance
is characterized by dist² = x² + y² with radius < dist. -/
theorem clamp_preserves_classification (x y dist radius deadZone axisPriority : ℚ)
    (hr : 0 < radius) (hdz0 : 0 ≤ deadZone) (hdzr : deadZone < radius)
    (_hap0 : 0 < axisPriority) (_hap1 : axisPriority ≤ 1)
    (hdist : dist ^ 2 = x ^ 2 + y ^ 2) (hfar : radius < dist) :
    getDominantDirection (clampToRadius x y dist radius).1
        (clampToRadius x y dist radius).2 radius deadZone axisPriority =
      getDominantDirection x y radius deadZone axisPriority := by
  have hd0 : (0:ℚ) < dist := hr.trans hfar
  have hrne : radius ≠ 0 := ne_of_gt hr
  have hdne : dist ≠ 0 := ne_of_gt hd0
  have hclamp : clampToRadius x y dist radius =
      (x / dist * radius, y / dist * radius) := by
    unfold clampToRadius
    rw [if_pos hfar]
  rw [hclamp]
  have ex : x / dist * radius / radius = x / dist := by
    rw [mul_div_assoc, div_self hrne, mul_one]
  have ey : y / dist * radius / radius = y / dist := by
    rw [mul_div_assoc, div_self hrne, mul_one]
  have hsumL : (x / dist * radius) ^ 2 + (y / dist * radius) ^ 2 =
      radius ^ 2 := by
    have h1 : (x / dist * radius) ^ 2 + (y / dist * radius) ^ 2 =
        (x ^ 2 + y ^ 2) / dist ^ 2 * radius ^ 2 := by ring
    rw [h1, ← hdist, div_self (pow_ne_zero 2 hdne), one_mul]
  have houtL : deadZone ^ 2 ≤ (x / dist * radius) ^ 2 +
      (y / dist * radius) ^ 2 := by
    rw [hsumL]
    nlinarith
  have houtR : deadZone ^ 2 ≤ x ^ 2 + y ^ 2 := by nlinarith
  rw [classify_of_outside _ _ _ _ _ hr houtL,
    classify_of_outside _ _ _ _ _ hr houtR, ex, ey]
  have key : ∀ c : ℚ, 0 < c →
      ((|x| / c > |y| / c * axisPriority) ↔ |y| * axisPriority < |x|) := by
    intro c hc
    rw [gt_iff_lt, div_mul_eq_mul_div, div_lt_div_iff_of_pos_right hc]
  have sgn : ∀ a c : ℚ, 0 < c → (a / c > 0 ↔ 0 < a) := by
    intro a c hc
    rw [gt_iff_lt, div_pos_iff]
    constructor
    · rintro (⟨h, -⟩ | ⟨-, h⟩)
      · exact h
      · exact absurd hc (lt_asymm h)
    · intro h
      exact Or.inl ⟨h, hc⟩
  have hax : (|x / dist| > |y / dist| * axisPriority) ↔
      (|x / radius| > |y / radius| * axisPriority) := by
    rw [abs_div, abs_div, abs_div, abs_div, abs_of_pos hd0, abs_of_pos hr,
      key dist hd0, key radius hr]
  have hsx : (x / dist > 0) ↔ (x / radius > 0) := by
    rw [sgn x dist hd0, sgn x radius hr]
  have hsy : (y / dist > 0) ↔ (y / radius > 0) := by
    rw [sgn y dist hd0, sgn y radius hr]
  simp only [hax, hsx, hsy]

/-- Witness for C7: offset (60, 80) has distance 100 > 70; its clamp is
(42, 56), and both the clamped and the raw offset classify as RIGHTY. -/
theorem clamp_preserves_classification_witness :
    getDominantDirection (clampToRadius 60 80 100 joystickRadius).1
        (clampToRadius 60 80 100 joystickRadius).2 joystickRadius
        deadZoneRadius axisPriorityThreshold =
      getDominantDirection 60 80 joystickRadius deadZoneRadius
        axisPriorityThreshold :=
  clamp_preserves_classification 60 80 100 joystickRadius deadZoneRadius
    axisPriorityThreshold (by norm_num [joystickRadius])
    (by norm_num [deadZoneRadius])
    (by norm_num [deadZoneRadius, joystickRadius])
    (by norm_num [axisPriorityThreshold])
    (by norm_num [axisPriorityThreshold])
    (by norm_num) (by norm_num [joystickRadius])

/-- Counterexample to C8: the update guard is `!isNaN`, not a
finiteness check — the string "Infinity" parses to a non-finite number
that is not NaN, so the marker and center ARE changed, contradicting the
claim that updates with a non-finite coordinate leave them unchanged. -/
theorem map_marker_infinity_counterexample :
    parseFloatJs "Infinity" = JsNum.posInf ∧
    (parseFloatJs "Infinity").isNaN = false ∧
    updateMapMarker marker0 "Infinity" "2.000000" ≠ marker0 := by
  refine ⟨by decide, by decide, by decide⟩

/-- C8 amended: the map-marker update ignores a GPS update exactly when
either coordinate parses as NaN (as the 'N/A' sentinel does); whenever
both parse as numbers — finite or infinite — the marker position and
map center are set to the parsed pair. -/
theorem map_marker_nan_guard (m : MarkerState) (latStr lngStr : String) :
    ((parseFloatJs latStr).isNaN = true ∨ (parseFloatJs lngStr).isNaN = true →
      updateMapMarker m latStr lngStr = m) ∧
    ((parseFloatJs latStr).isNaN = false → (parseFloatJs lngStr).isNaN = false →
      updateMapMarker m latStr lngStr =
        { markerPos := (parseFloatJs latStr, parseFloatJs lngStr)
          mapCenter := (parseFloatJs latStr, parseFloatJs lngStr) }) := by
  unfold updateMapMarker
  constructor
  · rintro (h | h) <;> simp [h]
  · intro h1 h2
    simp [h1, h2]

/-- Witness for the amended C8: an 'N/A' latitude leaves the marker
state unchanged. -/
theorem map_marker_nan_guard_witness :
    updateMapMarker marker0 "N/A" "2.000000" = marker0 :=
  (map_marker_nan_guard marker0 "N/A" "2.000000").1 (Or.inl (by decide))

/-- C9: the record written by updateFirebase sets at most one of the
four direction keys to "1" — exactly the key matching the direction for
UP, DOWN, LEFTY, RIGHTY, and none for CENTER or any other value — for
every direction string and spray pair. -/
theorem updateFirebase_exclusive (dir : String) (sLeft sRight : Bool) :
    ((updateFirebaseRecord dir sLeft sRight).dirFlags.count "1" ≤ 1) ∧
    (dir = "UP" →
      (updateFirebaseRecord dir sLeft sRight).dirFlags = ["1", "0", "0", "0"]) ∧
    (dir = "DOWN" →
      (updateFirebaseRecord dir sLeft sRight).dirFlags = ["0", "1", "0", "0"]) ∧
    (dir = "LEFTY" →
      (updateFirebaseRecord dir sLeft sRight).dirFlags = ["0", "0", "1", "0"]) ∧
    (dir = "RIGHTY" →
      (updateFirebaseRecord dir sLeft sRight).dirFlags = ["0", "0", "0", "1"]) ∧
    (dir ≠ "UP" → dir ≠ "DOWN" → dir ≠ "LEFTY" → dir ≠ "RIGHTY" →
      (updateFirebaseRecord dir sLeft sRight).dirFlags = ["0", "0", "0", "0"]) := by
  unfold updateFirebaseRecord ControlRecord.dirFlags
  by_cases h1 : dir = "UP" <;> by_cases h2 : dir = "DOWN" <;>
    by_cases h3 : dir = "LEFTY" <;> by_cases h4 : dir = "RIGHTY" <;>
    simp_all

/-- Witness for C9 at the directions "UP" and "CENTER". -/
theorem updateFirebase_exclusive_witness :
    (updateFirebaseRecord "UP" true false).dirFlags = ["1", "0", "0", "0"] ∧
    (updateFirebaseRecord "CENTER" false false).dirFlags =
      ["0", "0", "0", "0"] := by
  constructor
  · exact (updateFirebase_exclusive "UP" true false).2.1 rfl
  · exact (updateFirebase_exclusive "CENTER" false false).2.2.2.2.2
      (by decide) (by decide) (by decide) (by decide)

/-- C10: toggleSpeed maps s to (s % 3) + 1, so {1, 2, 3} is closed under
it, the sequence cycles 1 → 2 → 3 → 1, and iterating from the initial
speed 1 never leaves {1, 2, 3}. -/
theorem toggleSpeed_range :
    (∀ s, s ∈ ([1, 2, 3] : List ℕ) → toggleSpeed s ∈ ([1, 2, 3] : List ℕ)) ∧
    toggleSpeed 1 = 2 ∧ toggleSpeed 2 = 3 ∧ toggleSpeed 3 = 1 ∧
    (∀ n : ℕ, toggleSpeed^[n] 1 ∈ ([1, 2, 3] : List ℕ)) := by
  refine ⟨by decide, rfl, rfl, rfl, ?_⟩
  intro n
  induction n with
  | zero => decide
  | succ k ih =>
    rw [Function.iterate_succ_apply']
    simp only [List.mem_cons, List.not_mem_nil, or_false] at ih
    rcases ih with h | h | h <;> rw [h] <;> decide

/-- Witness for C10: toggling from speed 2 stays in range. -/
theorem toggleSpeed_range_witness :
    toggleSpeed 2 ∈ ([1, 2, 3] : List ℕ) :=
  toggleSpeed_range.1 2 (by decide)

end PERO
